import Mathlib

/-!
Shallow embedding of `errors.py`: the `Value` class (a measured value with an
associated uncertainty), its operator arithmetic with first-order error
propagation, and the derived `chi_squared` statistic.

Modelling conventions:
* a Python float is a real number; a numpy `ndarray` is a list of reals;
* a raised Python exception is the `Except.error` case of an
  `Except PyErr _` result;
* the module is modelled in its numpy mode (the `import numpy as math` at the
  top of the file succeeded), so `math.sqrt` is `np.sqrt` and scalar division
  by zero produces a numpy warning value rather than raising; we render the
  latter with the total real division of Lean.
-/

/-- A Python numeric operand payload as `errors.py` handles it: a scalar
float, or a numpy `ndarray` of floats modelled as a list of reals. -/
inductive NumA where
  | scalar (x : ℝ)
  | array (xs : List ℝ)

/-- The Python exceptions `errors.py` can raise, as far as the embedding needs
to tell them apart.  `constructionError` stands for the
`Exception("Incompatible values and errors in ... Check dimensions/types!")`
raised by `Value.__init__`; it records the offending `(value, error)` pair
that the message interpolates.  `assertionError` is a bare `assert` failure
(no message), `attributeError` a failed attribute lookup, `typeError` e.g.
`len()` or `sum()` applied to a scalar, `valueError` a numpy broadcast or
ambiguous-truth-value error. -/
inductive PyErr where
  | constructionError (value err : NumA)
  | assertionError
  | attributeError
  | typeError
  | valueError

/-- True exactly of the construction `Exception` that names the rejected
`(value, error)` pair. -/
def PyErr.isConstructionError : PyErr → Prop
  | .constructionError _ _ => True
  | _ => False

/-- Numpy addition: elementwise, broadcasting a scalar against an array;
adding two arrays of different lengths raises a broadcast `ValueError`. -/
def NumA.add : NumA → NumA → Except PyErr NumA
  | .scalar a, .scalar b => .ok (.scalar (a + b))
  | .scalar a, .array bs => .ok (.array (bs.map (fun b => a + b)))
  | .array as, .scalar b => .ok (.array (as.map (fun a => a + b)))
  | .array as, .array bs =>
      if as.length = bs.length then
        .ok (.array (List.zipWith (fun a b => a + b) as bs))
      else .error .valueError

/-- Numpy subtraction, with the same broadcasting rules as `NumA.add`. -/
def NumA.sub : NumA → NumA → Except PyErr NumA
  | .scalar a, .scalar b => .ok (.scalar (a - b))
  | .scalar a, .array bs => .ok (.array (bs.map (fun b => a - b)))
  | .array as, .scalar b => .ok (.array (as.map (fun a => a - b)))
  | .array as, .array bs =>
      if as.length = bs.length then
        .ok (.array (List.zipWith (fun a b => a - b) as bs))
      else .error .valueError

/-- Numpy multiplication, with the same broadcasting rules as `NumA.add`. -/
def NumA.mul : NumA → NumA → Except PyErr NumA
  | .scalar a, .scalar b => .ok (.scalar (a * b))
  | .scalar a, .array bs => .ok (.array (bs.map (fun b => a * b)))
  | .array as, .scalar b => .ok (.array (as.map (fun a => a * b)))
  | .array as, .array bs =>
      if as.length = bs.length then
        .ok (.array (List.zipWith (fun a b => a * b) as bs))
      else .error .valueError

/-- Numpy true division, with the same broadcasting rules as `NumA.add`.
Division by a zero element yields a numpy inf/nan with a runtime warning, not
an exception; the total real division of Lean stands in for that value. -/
noncomputable def NumA.div : NumA → NumA → Except PyErr NumA
  | .scalar a, .scalar b => .ok (.scalar (a / b))
  | .scalar a, .array bs => .ok (.array (bs.map (fun b => a / b)))
  | .array as, .scalar b => .ok (.array (as.map (fun a => a / b)))
  | .array as, .array bs =>
      if as.length = bs.length then
        .ok (.array (List.zipWith (fun a b => a / b) as bs))
      else .error .valueError

/-- Numpy `** n` for a literal natural exponent, elementwise on arrays. -/
def NumA.pow (a : NumA) (n : ℕ) : NumA :=
  match a with
  | .scalar x => .scalar (x ^ n)
  | .array xs => .array (xs.map (fun x => x ^ n))

/-- Numpy `sqrt`, elementwise on arrays.  On a negative element numpy returns
nan with a warning rather than raising; `Real.sqrt` (zero on negatives)
stands in for that value. -/
noncomputable def NumA.sqrt : NumA → NumA
  | .scalar x => .scalar (Real.sqrt x)
  | .array xs => .array (xs.map (fun x => Real.sqrt x))

/-- Python `len`: the length of an array; `len` of a float raises
`TypeError`. -/
def NumA.len : NumA → Except PyErr ℕ
  | .scalar _ => .error .typeError
  | .array xs => .ok xs.length

/-- The result object of a numpy `==` comparison: a scalar bool or a bool
array. -/
inductive BoolA where
  | scalar (p : Prop)
  | array (ps : List Prop)

/-- Numpy `==`: elementwise comparison with scalar broadcasting.  Comparing
two arrays of incompatible lengths does not raise: the elementwise comparison
fails and the whole comparison evaluates to the scalar `False` (with a numpy
deprecation warning). -/
def NumA.npEq : NumA → NumA → BoolA
  | .scalar a, .scalar b => .scalar (a = b)
  | .scalar a, .array bs => .array (bs.map (fun b => a = b))
  | .array as, .scalar b => .array (as.map (fun a => a = b))
  | .array as, .array bs =>
      if as.length = bs.length then
        .array (List.zipWith (fun a b => a = b) as bs)
      else .scalar False

/-- Python `bool()` of a comparison result: a scalar bool is itself, a
one-element bool array is its element, and `bool()` of any other array raises
the ambiguous-truth-value `ValueError`. -/
def BoolA.toBool : BoolA → Except PyErr Prop
  | .scalar p => .ok p
  | .array [p] => .ok p
  | .array _ => .error .valueError

/-- The truth value carried by a comparison object that is handed back to the
caller: as `BoolA.toBool`, except that a multi-element array object (unusable
as a boolean: `bool()` of it raises at the use site) is recorded as `False`
instead of raising here. -/
def BoolA.truthy : BoolA → Prop
  | .scalar p => p
  | .array [p] => p
  | .array _ => False

/-- The stored attributes of a `Value` object: `_value`, `_error`, the cached
derived `_percent_error`, and the `_is_array` mode flag fixed at
construction.  No attribute `_val` is ever assigned. -/
structure Value where
  _value : NumA
  _error : NumA
  _percent_error : NumA
  _is_array : Bool

/-- Method `Value.__do_percent(error, value)`: returns `error/value*100`. -/
noncomputable def Value.do_percent (err value : NumA) : Except PyErr NumA := do
  let d ← err.div value
  d.mul (.scalar 100)

/-- Construction `Value(value, error)` (`Value.__init__`).  If `value` is an
ndarray, `assert len(value) == len(error)` runs: a failing assertion, or the
`TypeError` from `len(error)` when `error` is a scalar, is caught and
re-raised as the construction `Exception` naming the `(value, error)` pair.
If `value` is a scalar the `isinstance` probe fails, `_is_array` is `False`,
and no check at all is applied to `error`.  On success the fields are stored
and `_percent_error` is computed by `__do_percent`. -/
noncomputable def Value.init (value err : NumA) : Except PyErr Value :=
  match value with
  | .array vs =>
      match err with
      | .array es =>
          if vs.length = es.length then do
            let p ← Value.do_percent (.array es) (.array vs)
            .ok ⟨.array vs, .array es, p, true⟩
          else .error (.constructionError (.array vs) (.array es))
      | .scalar e => .error (.constructionError (.array vs) (.scalar e))
  | .scalar v => do
      let p ← Value.do_percent err (.scalar v)
      .ok ⟨.scalar v, err, p, false⟩

/-- Property `value`. -/
def Value.value (self : Value) : NumA := self._value

/-- Property `error`. -/
def Value.error (self : Value) : NumA := self._error

/-- Property `percent_error`. -/
def Value.percent_error (self : Value) : NumA := self._percent_error

/-- Alias property `err`: returns `self._error`. -/
def Value.err (self : Value) : NumA := self._error

/-- Alias property `val`: the source returns `self._val`, but no attribute
`_val` is ever assigned anywhere in the class (the stored attribute is
`_value`), so every read of `.val` raises `AttributeError`. -/
def Value.val (_ : Value) : Except PyErr NumA := .error .attributeError

/-- Alias property `percent`: returns `self._percent_error`. -/
def Value.percent (self : Value) : NumA := self._percent_error

/-- Alias property `pc`: returns `self._percent_error`. -/
def Value.pc (self : Value) : NumA := self._percent_error

/-- Python `assert c` with no message: raises a bare `AssertionError` when
the condition fails. -/
def pyAssert (c : Prop) [Decidable c] : Except PyErr Unit :=
  if c then .ok () else .error .assertionError

/-- Setter `value = new_value`: on an array-mode object it runs
`assert len(new_value) == len(self.error)` (so `len` of a scalar raises an
uncaught `TypeError` and a length mismatch a bare `AssertionError`), then
stores the new value and refreshes `_percent_error` via `__do_percent`. -/
noncomputable def Value.setValue (self : Value) (new_value : NumA) : Except PyErr Value := do
  if self._is_array then
    let n ← new_value.len
    let m ← self._error.len
    pyAssert (n = m)
  let p ← Value.do_percent self._error new_value
  pure { self with _value := new_value, _percent_error := p }

/-- Setter `error = new_error`: on an array-mode object it runs
`assert len(new_error) == len(self.value)`, then stores the new error and
refreshes `_percent_error` via `__do_percent`. -/
noncomputable def Value.setError (self : Value) (new_error : NumA) : Except PyErr Value := do
  if self._is_array then
    let n ← new_error.len
    let m ← self._value.len
    pyAssert (n = m)
  let p ← Value.do_percent new_error self._value
  pure { self with _error := new_error, _percent_error := p }

/-- The right-hand operand of a binary operator: either another `Value` (the
`other.value` attribute probe succeeds) or a plain numeric constant or
constant array (the probe raises `AttributeError`, which the arithmetic
operators catch and treat as the constant case). -/
inductive Operand where
  | value (v : Value)
  | const (c : NumA)

/-- Addition `Value.__add__`.  With another `Value` the errors add in
quadrature; a plain constant is treated as having error 0 and the error
passes through unchanged. -/
noncomputable def Value.add (self : Value) (other : Operand) : Except PyErr Value :=
  match other with
  | .value o => do
      let nv ← self._value.add o._value
      let s ← (self._error.pow 2).add (o._error.pow 2)
      Value.init nv s.sqrt
  | .const c => do
      let nv ← c.add self._value
      Value.init nv self._error

/-- Reflected addition `Value.__radd__`: the source duplicates the body of
`__add__` verbatim. -/
noncomputable def Value.radd (self : Value) (other : Operand) : Except PyErr Value :=
  match other with
  | .value o => do
      let nv ← self._value.add o._value
      let s ← (self._error.pow 2).add (o._error.pow 2)
      Value.init nv s.sqrt
  | .const c => do
      let nv ← c.add self._value
      Value.init nv self._error

/-- Subtraction `Value.__sub__`: the error formula is the same quadrature sum
as for addition. -/
noncomputable def Value.sub (self : Value) (other : Operand) : Except PyErr Value :=
  match other with
  | .value o => do
      let nv ← self._value.sub o._value
      let s ← (self._error.pow 2).add (o._error.pow 2)
      Value.init nv s.sqrt
  | .const c => do
      let nv ← self._value.sub c
      Value.init nv self._error

/-- Multiplication `Value.__mul__`.  With another `Value`, the new error is
`new_value * sqrt((self.error/self.value)**2 + (other.error/other.value)**2)`
with the signed `new_value` as the prefactor; with a constant, value and
error are both scaled by the constant. -/
noncomputable def Value.mul (self : Value) (other : Operand) : Except PyErr Value :=
  match other with
  | .value o => do
      let nv ← self._value.mul o._value
      let r1 ← self._error.div self._value
      let r2 ← o._error.div o._value
      let s ← (r1.pow 2).add (r2.pow 2)
      let ne ← nv.mul s.sqrt
      Value.init nv ne
  | .const c => do
      let nv ← self._value.mul c
      let ne ← self._error.mul c
      Value.init nv ne

/-- Reflected multiplication `Value.__rmul__`: the source duplicates the body
of `__mul__` verbatim. -/
noncomputable def Value.rmul (self : Value) (other : Operand) : Except PyErr Value :=
  match other with
  | .value o => do
      let nv ← self._value.mul o._value
      let r1 ← self._error.div self._value
      let r2 ← o._error.div o._value
      let s ← (r1.pow 2).add (r2.pow 2)
      let ne ← nv.mul s.sqrt
      Value.init nv ne
  | .const c => do
      let nv ← self._value.mul c
      let ne ← self._error.mul c
      Value.init nv ne

/-- True division `Value.__truediv__`: same shape as `__mul__` with the
quotient as the new value and as the signed prefactor of the error. -/
noncomputable def Value.truediv (self : Value) (other : Operand) : Except PyErr Value :=
  match other with
  | .value o => do
      let nv ← self._value.div o._value
      let r1 ← self._error.div self._value
      let r2 ← o._error.div o._value
      let s ← (r1.pow 2).add (r2.pow 2)
      let ne ← nv.mul s.sqrt
      Value.init nv ne
  | .const c => do
      let nv ← self._value.div c
      let ne ← self._error.div c
      Value.init nv ne

/-- Floor division `Value.__floordiv__`: delegates to `__truediv__`. -/
noncomputable def Value.floordiv (self : Value) (other : Operand) : Except PyErr Value :=
  self.truediv other

/-- Equality `Value.__eq__`: evaluates
`self.value == other.value and self.error == other.error` with no
try/except, so the attribute probe on a plain-number operand raises
`AttributeError`.  The Python `and` first evaluates `bool()` of the
value comparison (raising the ambiguous-truth-value `ValueError` on a
multi-element bool array) and then hands back one of the two comparison
objects; the proposition recorded here is the truth value of that returned
object (see `BoolA.truthy`). -/
def Value.eq (self : Value) (other : Operand) : Except PyErr Prop :=
  match other with
  | .const _ => .error .attributeError
  | .value o =>
      match (self._value.npEq o._value).toBool with
      | .error e => .error e
      | .ok pv => .ok (pv ∧ (self._error.npEq o._error).truthy)

/-- Weighted-mean operator `Value.__and__`: inverse-variance weights
`1/error**2`; the combined value is the weighted mean and the combined error
is `sqrt(1/wgt_sum)`.  There is no operand dispatch here: a plain-number
operand raises `AttributeError` at `other.error`. -/
noncomputable def Value.and (self : Value) (other : Operand) : Except PyErr Value :=
  match other with
  | .const _ => .error .attributeError
  | .value o => do
      let self_wgt ← (NumA.scalar 1).div (self._error.pow 2)
      let other_wgt ← (NumA.scalar 1).div (o._error.pow 2)
      let wgt_sum ← self_wgt.add other_wgt
      let t1 ← self_wgt.mul self._value
      let t2 ← other_wgt.mul o._value
      let num ← t1.add t2
      let nv ← num.div wgt_sum
      let inv ← (NumA.scalar 1).div wgt_sum
      Value.init nv inv.sqrt

/-- Python's builtin `sum` as `chi_squared` applies it: iterating a numpy
array sums its elements, but a scalar float is not iterable, so `sum` of a
scalar raises `TypeError`. -/
def pySum : NumA → Except PyErr ℝ
  | .scalar _ => .error .typeError
  | .array xs => .ok xs.sum

/-- Free function `chi_squared(value1, value2)`: computes
`ratio = value1/value2` and returns
`sum((1-ratio.value)**2/ratio.error**2)`. -/
noncomputable def chi_squared (value1 value2 : Value) : Except PyErr ℝ := do
  let r ← value1.truediv (.value value2)
  let d ← (NumA.scalar 1).sub r._value
  let q ← (d.pow 2).div (r._error.pow 2)
  pySum q

/-- The object produced by the scalar construction `Value(v, e)`:
`_is_array` is `False` and `_percent_error` is `e/v*100`
(see `init_scalar`). -/
noncomputable def Value.ofScalar (v e : ℝ) : Value :=
  ⟨.scalar v, .scalar e, .scalar (e / v * 100), false⟩

/-- The object produced by the array construction
`Value(np.array([1,2]), np.array([3,4]))` (see `init_array_pair`). -/
noncomputable def xArr : Value :=
  ⟨.array [1, 2], .array [3, 4], .array [3 / 1 * 100, 4 / 2 * 100], true⟩

theorem init_scalar (v e : ℝ) :
    Value.init (.scalar v) (.scalar e) = .ok (Value.ofScalar v e) := rfl

theorem init_array_pair :
    Value.init (.array [1, 2]) (.array [3, 4]) = .ok xArr := rfl

/-- C1: for all scalar quantities `a = Value(va, ea)` and `b = Value(vb, eb)`,
the result of `a + b` has error `sqrt(a.error^2 + b.error^2)`, and the result
of `a - b` has that same error: the add and subtract error formulas are
identical regardless of sign.  (Array-valued quantities apply the same
formula elementwise through the `NumA` layer.) -/
theorem add_sub_error_quadrature (va ea vb eb : ℝ) :
    Except.map Value.error
        ((Value.ofScalar va ea).add (.value (Value.ofScalar vb eb)))
      = .ok (.scalar (Real.sqrt (ea ^ 2 + eb ^ 2)))
    ∧ Except.map Value.error
        ((Value.ofScalar va ea).sub (.value (Value.ofScalar vb eb)))
      = .ok (.scalar (Real.sqrt (ea ^ 2 + eb ^ 2))) :=
  ⟨rfl, rfl⟩

/-- C2 counterexample: for `a = Value(1, 3)` and `b = Value(-2, 4)` the error
of `a * b` is the signed product `1 * -2` times the quadrature factor, which
is negative — refuting the claim that the error equals
`|a.value * b.value| * sqrt(...)` and is never negative. -/
theorem mul_error_negative_cex :
    Except.map Value.error
        ((Value.ofScalar 1 3).mul (.value (Value.ofScalar (-2) 4)))
      = .ok (.scalar ((1 * -2) * Real.sqrt ((3 / 1) ^ 2 + (4 / -2) ^ 2)))
    ∧ ((1 * -2 : ℝ) * Real.sqrt ((3 / 1) ^ 2 + (4 / -2) ^ 2)) < 0 := by
  refine ⟨rfl, ?_⟩
  have h : (0 : ℝ) < Real.sqrt ((3 / 1) ^ 2 + (4 / -2) ^ 2) :=
    Real.sqrt_pos.mpr (by norm_num)
  nlinarith

/-- C2 amended: for scalar quantities with nonzero values, the error of
`a * b` is `(a.value * b.value) * sqrt((a.error/a.value)^2 +
(b.error/b.value)^2)` — the signed product, not its absolute value — and the
error of `a / b` is `(a.value / b.value)` times the same quadrature factor,
so the resulting error is negative whenever the resulting value is. -/
theorem mul_div_error_signed_quadrature (va ea vb eb : ℝ)
    (ha : va ≠ 0) (hb : vb ≠ 0) :
    Except.map Value.error
        ((Value.ofScalar va ea).mul (.value (Value.ofScalar vb eb)))
      = .ok (.scalar ((va * vb) * Real.sqrt ((ea / va) ^ 2 + (eb / vb) ^ 2)))
    ∧ Except.map Value.error
        ((Value.ofScalar va ea).truediv (.value (Value.ofScalar vb eb)))
      = .ok (.scalar ((va / vb) * Real.sqrt ((ea / va) ^ 2 + (eb / vb) ^ 2))) :=
  ⟨rfl, rfl⟩

/-- C2 amended, witness at `a = Value(1, 3)`, `b = Value(2, 4)`. -/
theorem mul_div_error_signed_quadrature_witness :
    Except.map Value.error
        ((Value.ofScalar 1 3).mul (.value (Value.ofScalar 2 4)))
      = .ok (.scalar ((1 * 2) * Real.sqrt ((3 / 1) ^ 2 + (4 / 2) ^ 2)))
    ∧ Except.map Value.error
        ((Value.ofScalar 1 3).truediv (.value (Value.ofScalar 2 4)))
      = .ok (.scalar ((1 / 2) * Real.sqrt ((3 / 1) ^ 2 + (4 / 2) ^ 2))) :=
  mul_div_error_signed_quadrature 1 3 2 4 (by norm_num) (by norm_num)

/-- C3 counterexample: comparing `Value(1, 3)` with the plain number `5`
raises `AttributeError` (the probe `other.value` in `__eq__` is not guarded
by any try/except), instead of returning the boolean `False`. -/
theorem eq_plain_number_raises_cex :
    Value.eq (Value.ofScalar 1 3) (.const (.scalar 5)) = .error .attributeError :=
  rfl

/-- C3 amended: equality between two scalar quantities is total and returns
the boolean `a.value == b.value and a.error == b.error`; but comparing a
quantity against a plain number raises `AttributeError` rather than
returning false. -/
theorem eq_scalar_total (va ea vb eb : ℝ) :
    Value.eq (Value.ofScalar va ea) (.value (Value.ofScalar vb eb))
      = .ok (va = vb ∧ ea = eb)
    ∧ Value.eq (Value.ofScalar va ea) (.const (.scalar vb))
      = .error .attributeError :=
  ⟨rfl, rfl⟩

/-- C6: `chi_squared` on two scalar quantities raises `TypeError`, because
the builtin `sum` is applied to the scalar term
`(1-ratio.value)**2/ratio.error**2` and a float is not iterable — it does not
return the single term the claim (and the scalar `dof = 1.` default of
`chi_squared_dof`) expects. -/
theorem chi_squared_scalar_raises :
    chi_squared (Value.ofScalar 1 3) (Value.ofScalar 2 4) = .error .typeError :=
  rfl

/-- C7: for every quantity `a` and every plain constant `c` (scalar or
array), `c + a` computed by `__radd__` is exactly the result of `a + c`
computed by `__add__` — same value, error and percent error — and likewise
`c * a` via `__rmul__` equals `a * c` via `__mul__`. -/
theorem radd_rmul_match_add_mul (a : Value) (c : NumA) :
    a.radd (.const c) = a.add (.const c)
    ∧ a.rmul (.const c) = a.mul (.const c) :=
  ⟨rfl, rfl⟩

/-- C10: reading the alias `.val` on `Value(1, 3)` raises `AttributeError`
(the property returns the never-assigned attribute `self._val` instead of
`self._value`), whereas `.value` returns the stored scalar `1`. -/
theorem val_alias_raises :
    Value.val (Value.ofScalar 1 3) = .error .attributeError
    ∧ Value.value (Value.ofScalar 1 3) = .scalar 1 :=
  ⟨rfl, rfl⟩

/-- C4 counterexample: for `a = Value(1, -3)` (the class does not validate
that errors are non-negative), `a - a` has error
`sqrt((-3)^2 + (-3)^2) = 3*sqrt(2) ≥ 0`, which differs from
`sqrt(2) * a.error = -3*sqrt(2) < 0`. -/
theorem sub_self_error_negative_cex :
    Except.map Value.error
        ((Value.ofScalar 1 (-3)).sub (.value (Value.ofScalar 1 (-3))))
      ≠ .ok (.scalar (Real.sqrt 2 * (-3))) := by
  have h : Except.map Value.error
      ((Value.ofScalar 1 (-3)).sub (.value (Value.ofScalar 1 (-3))))
      = .ok (.scalar (Real.sqrt ((-3 : ℝ) ^ 2 + (-3 : ℝ) ^ 2))) := rfl
  rw [h]
  intro hcontra
  have h1 : Real.sqrt ((-3 : ℝ) ^ 2 + (-3 : ℝ) ^ 2) = Real.sqrt 2 * (-3) := by
    have := hcontra
    injection this with h2
    injection h2
  have h3 : (0 : ℝ) ≤ Real.sqrt ((-3 : ℝ) ^ 2 + (-3 : ℝ) ^ 2) := Real.sqrt_nonneg _
  have h4 : (0 : ℝ) < Real.sqrt 2 := Real.sqrt_pos.mpr (by norm_num)
  nlinarith

/-- C4 amended: for every scalar quantity `a` with non-negative error,
`a - a` yields value `0` and error `sqrt(2) * a.error`; for a (never
validated) negative stored error the result is `sqrt(2) * |a.error|`
instead. -/
theorem sub_self_value_error (v e : ℝ) (he : 0 ≤ e) :
    Except.map Value.value
        ((Value.ofScalar v e).sub (.value (Value.ofScalar v e)))
      = .ok (.scalar 0)
    ∧ Except.map Value.error
        ((Value.ofScalar v e).sub (.value (Value.ofScalar v e)))
      = .ok (.scalar (Real.sqrt 2 * e)) := by
  constructor
  · have h : Except.map Value.value
        ((Value.ofScalar v e).sub (.value (Value.ofScalar v e)))
        = .ok (.scalar (v - v)) := rfl
    rw [h, sub_self]
  · have h : Except.map Value.error
        ((Value.ofScalar v e).sub (.value (Value.ofScalar v e)))
        = .ok (.scalar (Real.sqrt (e ^ 2 + e ^ 2))) := rfl
    rw [h]
    have h2 : e ^ 2 + e ^ 2 = 2 * e ^ 2 := by ring
    rw [h2, Real.sqrt_mul (by norm_num), Real.sqrt_sq he]

/-- C4 amended, witness at `a = Value(1, 3)`. -/
theorem sub_self_value_error_witness :
    Except.map Value.value
        ((Value.ofScalar 1 3).sub (.value (Value.ofScalar 1 3)))
      = .ok (.scalar 0)
    ∧ Except.map Value.error
        ((Value.ofScalar 1 3).sub (.value (Value.ofScalar 1 3)))
      = .ok (.scalar (Real.sqrt 2 * 3)) :=
  sub_self_value_error 1 3 (by norm_num)

/-- C5: for scalar quantities `a`, `b` with strictly positive errors, the
weighted-mean operator `a & b` returns value
`(w_a*a.value + w_b*b.value)/(w_a + w_b)` and error `sqrt(1/(w_a + w_b))`,
where `w_x = 1/x.error^2`. -/
theorem and_weighted_mean (va ea vb eb : ℝ) (ha : 0 < ea) (hb : 0 < eb) :
    Except.map Value.value
        ((Value.ofScalar va ea).and (.value (Value.ofScalar vb eb)))
      = .ok (.scalar ((1 / ea ^ 2 * va + 1 / eb ^ 2 * vb) / (1 / ea ^ 2 + 1 / eb ^ 2)))
    ∧ Except.map Value.error
        ((Value.ofScalar va ea).and (.value (Value.ofScalar vb eb)))
      = .ok (.scalar (Real.sqrt (1 / (1 / ea ^ 2 + 1 / eb ^ 2)))) :=
  ⟨rfl, rfl⟩

/-- C5 witness at `a = Value(1, 3)`, `b = Value(2, 4)`. -/
theorem and_weighted_mean_witness :
    Except.map Value.value
        ((Value.ofScalar 1 3).and (.value (Value.ofScalar 2 4)))
      = .ok (.scalar ((1 / 3 ^ 2 * 1 + 1 / 4 ^ 2 * 2) / (1 / 3 ^ 2 + 1 / 4 ^ 2)))
    ∧ Except.map Value.error
        ((Value.ofScalar 1 3).and (.value (Value.ofScalar 2 4)))
      = .ok (.scalar (Real.sqrt (1 / (1 / 3 ^ 2 + 1 / 4 ^ 2)))) :=
  and_weighted_mean 1 3 2 4 (by norm_num) (by norm_num)

theorem init_array_ok (vs es : List ℝ) (h : vs.length = es.length) :
    Value.init (.array vs) (.array es)
      = .ok ⟨.array vs, .array es,
             .array ((List.zipWith (fun a b => a / b) es vs).map (fun x => x * 100)),
             true⟩ := by
  simp only [Value.init]
  rw [if_pos h]
  simp only [Value.do_percent, NumA.div]
  rw [if_pos h.symm]
  rfl

theorem setError_mismatch (vs es ns : List ℝ) (p : NumA)
    (hn : ns.length ≠ vs.length) :
    (Value.mk (.array vs) (.array es) p true).setError (.array ns)
      = .error .assertionError := by
  simp [Value.setError, NumA.len, pyAssert, hn, Bind.bind, Except.bind]

theorem setValue_mismatch (vs es ns : List ℝ) (p : NumA)
    (hn : ns.length ≠ es.length) :
    (Value.mk (.array vs) (.array es) p true).setValue (.array ns)
      = .error .assertionError := by
  simp [Value.setValue, NumA.len, pyAssert, hn, Bind.bind, Except.bind]

theorem setValue_ok_percent (a r : Value) (nv : NumA)
    (h : a.setValue nv = .ok r) :
    Value.do_percent r.error r.value = .ok r.percent_error := by
  unfold Value.setValue at h
  simp only [Bind.bind, Except.bind, pure, Except.pure, pyAssert] at h
  repeat' split at h
  all_goals try exact Except.noConfusion h
  all_goals
    injection h with h2
    subst h2
    simp only [Value.error, Value.value, Value.percent_error]
    assumption

theorem setError_ok_percent (a s : Value) (ne : NumA)
    (h : a.setError ne = .ok s) :
    Value.do_percent s.error s.value = .ok s.percent_error := by
  unfold Value.setError at h
  simp only [Bind.bind, Except.bind, pure, Except.pure, pyAssert] at h
  repeat' split at h
  all_goals try exact Except.noConfusion h
  all_goals
    injection h with h2
    subst h2
    simp only [Value.error, Value.value, Value.percent_error]
    assumption

/-- C8 amended: constructing from an array value with an error that is not an
array of identical length fails with the construction `Exception` naming the
rejected `(value, error)` pair; reassigning `value` or `error` on an
array-valued quantity to a mismatched length also fails, but with a bare
`AssertionError` that does not name the pair (not the construction error);
and construction with a scalar value performs no length check at all. -/
theorem construction_setter_length_checks (vs es ms ns : List ℝ) (v : ℝ)
    (e : NumA) (hgood : vs.length = es.length) (hm : vs.length ≠ ms.length)
    (hnv : ns.length ≠ vs.length) (hne : ns.length ≠ es.length) :
    Value.init (.array vs) (.array ms)
      = .error (.constructionError (.array vs) (.array ms))
    ∧ Value.init (.array vs) (.scalar v)
      = .error (.constructionError (.array vs) (.scalar v))
    ∧ (∀ x, Value.init (.array vs) (.array es) = .ok x →
        x.setError (.array ns) = .error .assertionError
        ∧ x.setValue (.array ns) = .error .assertionError)
    ∧ ∃ w, Value.init (.scalar v) e = .ok w := by
  refine ⟨?_, rfl, ?_, ?_⟩
  · simp only [Value.init]
    rw [if_neg hm]
  · intro x hx
    rw [init_array_ok vs es hgood] at hx
    injection hx with h2
    subst h2
    exact ⟨setError_mismatch vs es ns _ hnv, setValue_mismatch vs es ns _ hne⟩
  · cases e with
    | scalar y => exact ⟨_, rfl⟩
    | array ys => exact ⟨_, rfl⟩

/-- C8 amended, witness at `Value(np.array([1,2]), ...)` with the mismatched
error array `[9]`, the scalar value `7`, and the setter operand
`[9,9,9]`. -/
theorem construction_setter_length_checks_witness :
    Value.init (.array [1, 2]) (.array [9])
      = .error (.constructionError (.array [1, 2]) (.array [9]))
    ∧ Value.init (.array [1, 2]) (.scalar 7)
      = .error (.constructionError (.array [1, 2]) (.scalar 7))
    ∧ (xArr.setError (.array [9, 9, 9]) = .error .assertionError
        ∧ xArr.setValue (.array [9, 9, 9]) = .error .assertionError)
    ∧ ∃ w, Value.init (.scalar 7) (.scalar 8) = .ok w := by
  have h := construction_setter_length_checks [1, 2] [3, 4] [9] [9, 9, 9] 7
    (.scalar 8) (by decide) (by decide) (by decide) (by decide)
  exact ⟨h.1, h.2.1, h.2.2.1 xArr init_array_pair, h.2.2.2⟩

/-- C8 counterexample: reassigning the error of the array-valued quantity
`Value(np.array([1,2]), np.array([3,4]))` to the mismatched-length array
`[9]` fails with a bare `AssertionError`, which is not the construction
error naming the rejected pair — so the setter does not fail the same way as
construction does. -/
theorem setter_failure_not_construction_cex :
    xArr.setError (.array [9]) = .error .assertionError
    ∧ ¬ PyErr.isConstructionError .assertionError :=
  ⟨rfl, fun hfalse => hfalse⟩

/-- C9: whenever a `value` or `error` setter call succeeds, the stored
`percent_error` of the resulting object is exactly `error/value*100`
recomputed by `__do_percent` from the currently stored value and error. -/
theorem percent_error_consistent (a r s : Value) (nv ne : NumA)
    (hv : a.setValue nv = .ok r) (he : a.setError ne = .ok s) :
    Value.do_percent r.error r.value = .ok r.percent_error
    ∧ Value.do_percent s.error s.value = .ok s.percent_error :=
  ⟨setValue_ok_percent a r nv hv, setError_ok_percent a s ne he⟩

/-- C9 witness: mutating `Value(1, 3)` by `value = 2` and, separately, by
`error = 4`. -/
theorem percent_error_consistent_witness :
    Value.do_percent
        (Value.mk (.scalar 2) (.scalar 3) (.scalar (3 / 2 * 100)) false).error
        (Value.mk (.scalar 2) (.scalar 3) (.scalar (3 / 2 * 100)) false).value
      = .ok (Value.mk (.scalar 2) (.scalar 3) (.scalar (3 / 2 * 100)) false).percent_error
    ∧ Value.do_percent
        (Value.mk (.scalar 1) (.scalar 4) (.scalar (4 / 1 * 100)) false).error
        (Value.mk (.scalar 1) (.scalar 4) (.scalar (4 / 1 * 100)) false).value
      = .ok (Value.mk (.scalar 1) (.scalar 4) (.scalar (4 / 1 * 100)) false).percent_error :=
  percent_error_consistent (Value.ofScalar 1 3) _ _ (.scalar 2) (.scalar 4)
    rfl rfl
